import Mathlib

/-!
Shallow embedding of the `fynesse_mlfc` repository (files
`src/fynesse/access.py`, `src/fynesse/assess.py`, `src/fynesse/address.py`)
and proofs about its data model and operations.

Modelling conventions:
* Python floats are modelled as rationals (`ℚ`); the claims under study are
  about the arithmetic expressions themselves, not float rounding.
* A pandas `DataFrame`/`GeoDataFrame` is modelled as a column list plus rows of
  optional string cells (`none` models a missing value / `NaN`).
* External services (osmnx, pandas CSV reading, librosa/torchaudio loading,
  shapely centroids) are modelled as environment records of functions, so a
  method's use of the network is visible as a dependency on the environment.
* A Python method that can raise is modelled as returning
  `DataAccess × Except PyErr α`: the first component is the object state at
  return or raise time (Python exceptions do not roll back mutations).
-/

namespace Fynesse

/-- Classes of Python exceptions the embedded code can raise. `generic` stands
for an exception of a class the embedding does not distinguish. -/
inductive PyErr
  | valueError
  | attributeError
  | nameError
  | keyError
  | generic
deriving DecidableEq

/-- A value of an osmnx tag dictionary: `True` or a string. -/
inductive TagVal
  | bool (b : Bool)
  | str (s : String)
deriving DecidableEq

/-- A tag dictionary passed to `ox.features_from_bbox`. -/
abbrev Tags := List (String × TagVal)

/-- A pandas `DataFrame`: named columns and rows of cells, where a cell is
`none` for a missing value (`NaN`) and `some v` for the value `v`. -/
structure DF where
  cols : List String
  rows : List (List (Option String))
deriving DecidableEq

/-- The empty dataframe. -/
def dfEmpty : DF := ⟨[], []⟩

/-- The values of column `k`, one per row (`[]` when the column is absent). -/
def DF.colValues (df : DF) (k : String) : List (Option String) :=
  match df.cols.findIdx? (fun c => c == k) with
  | none => []
  | some i => df.rows.map (fun r => (r.get? i).join)

/-- Column assignment `df[k] = vals`: overwrite the column if present,
append it otherwise (pandas semantics of assigning a column). -/
def DF.setCol (df : DF) (k : String) (vals : List (Option String)) : DF :=
  match df.cols.findIdx? (fun c => c == k) with
  | some i => { cols := df.cols, rows := (df.rows.zip vals).map (fun rv => rv.1.set i rv.2) }
  | none => { cols := df.cols ++ [k], rows := (df.rows.zip vals).map (fun rv => rv.1 ++ [rv.2]) }

/-- `os.path.join(a, b)` for the simple shapes used in the repository. -/
def os_path_join (a b : String) : String :=
  if b.startsWith "/" then b
  else if a = "" then b
  else if a.endsWith "/" then a ++ b
  else a ++ "/" ++ b

/-- The cached state of `access.py`'s `DataAccess` object: constructor
arguments, derived bounding box, default tags, and the ten nullable cached
query results. The road graph is abstracted to an identifier. -/
structure DataAccess where
  place_name : String
  latitude : ℚ
  longitude : ℚ
  box_width : ℚ
  box_height : ℚ
  north : ℚ
  south : ℚ
  west : ℚ
  east : ℚ
  bbox : ℚ × ℚ × ℚ × ℚ
  default_tags : Tags
  pois : Option DF
  graph : Option Nat
  area : Option DF
  nodes : Option DF
  edges : Option DF
  buildings : Option DF
  schools : Option DF
  hospitals : Option DF
  population : Option DF
  esc50_meta : Option DF
deriving DecidableEq

/-- `DataAccess.__init__` (src/fynesse/access.py, lines 18-55). -/
def mk_DataAccess (place_name : String) (latitude longitude box_width box_height : ℚ) :
    DataAccess :=
  let north := latitude + box_height / 2
  let south := latitude - box_height / 2
  let west := longitude - box_width / 2
  let east := longitude + box_width / 2
  { place_name := place_name
    latitude := latitude
    longitude := longitude
    box_width := box_width
    box_height := box_height
    north := north
    south := south
    west := west
    east := east
    bbox := (west, south, east, north)
    default_tags :=
      [("amenity", .bool true), ("building", .bool true), ("historic", .bool true),
       ("leisure", .bool true), ("shop", .bool true), ("tourism", .bool true),
       ("religion", .bool true), ("memorial", .bool true)]
    pois := none
    graph := none
    area := none
    nodes := none
    edges := none
    buildings := none
    schools := none
    hospitals := none
    population := none
    esc50_meta := none }

/-- The external services `access.py` calls: osmnx queries, geocoding and CSV
reading. Each can fail with a Python exception. -/
structure OxEnv where
  features_from_bbox : ℚ × ℚ × ℚ × ℚ → Tags → Except PyErr DF
  graph_from_bbox : ℚ × ℚ × ℚ × ℚ → Except PyErr Nat
  graph_to_gdfs : Nat → Except PyErr (DF × DF)
  geocode_to_gdf : String → Except PyErr DF
  read_csv : String → Except PyErr DF

/-- `DataAccess.access_pois` (access.py, lines 58-63): fetch POIs for the
bounding box (default tags when none are given), cache and return them. -/
def access_pois (env : OxEnv) (s : DataAccess) (tags : Option Tags) :
    DataAccess × Except PyErr DF :=
  let t := tags.getD s.default_tags
  match env.features_from_bbox s.bbox t with
  | .error e => (s, .error e)
  | .ok p => ({ s with pois := some p }, .ok p)

/-- `DataAccess.access_road_network` (access.py, lines 65-68): the graph is
assigned before the node/edge conversion, so a conversion failure leaves the
newly fetched graph cached. -/
def access_road_network (env : OxEnv) (s : DataAccess) :
    DataAccess × Except PyErr (DF × DF) :=
  match env.graph_from_bbox s.bbox with
  | .error e => (s, .error e)
  | .ok g =>
    let s1 := { s with graph := some g }
    match env.graph_to_gdfs g with
    | .error e => (s1, .error e)
    | .ok ne => ({ s1 with nodes := some ne.1, edges := some ne.2 }, .ok ne)

/-- `DataAccess.access_area_boundary` (access.py, lines 70-72). -/
def access_area_boundary (env : OxEnv) (s : DataAccess) :
    DataAccess × Except PyErr DF :=
  match env.geocode_to_gdf s.place_name with
  | .error e => (s, .error e)
  | .ok a => ({ s with area := some a }, .ok a)

/-- `DataAccess.access_buildings` (access.py, lines 74-76). -/
def access_buildings (env : OxEnv) (s : DataAccess) :
    DataAccess × Except PyErr DF :=
  match env.features_from_bbox s.bbox [("building", .bool true)] with
  | .error e => (s, .error e)
  | .ok b => ({ s with buildings := some b }, .ok b)

/-- `DataAccess.access_schools` (access.py, lines 78-82). -/
def access_schools (env : OxEnv) (s : DataAccess) :
    DataAccess × Except PyErr DF :=
  match env.features_from_bbox s.bbox [("amenity", .str "school")] with
  | .error e => (s, .error e)
  | .ok sc => ({ s with schools := some sc }, .ok sc)

/-- `DataAccess.access_hospitals` (access.py, lines 84-88). -/
def access_hospitals (env : OxEnv) (s : DataAccess) :
    DataAccess × Except PyErr DF :=
  match env.features_from_bbox s.bbox [("amenity", .str "hospital")] with
  | .error e => (s, .error e)
  | .ok ho => ({ s with hospitals := some ho }, .ok ho)

/-- `DataAccess.access_population` (access.py, lines 90-93). -/
def access_population (env : OxEnv) (s : DataAccess) (csv_path : String) :
    DataAccess × Except PyErr DF :=
  match env.read_csv csv_path with
  | .error e => (s, .error e)
  | .ok p => ({ s with population := some p }, .ok p)

/-- `DataAccess.access_all_data` (access.py, lines 95-104): five fetches whose
exceptions propagate, then the road-network fetch under `try/except: pass`. -/
def access_all_data (env : OxEnv) (s : DataAccess) :
    DataAccess × Except PyErr Unit :=
  match access_pois env s none with
  | (s1, .error e) => (s1, .error e)
  | (s1, .ok _) =>
    match access_area_boundary env s1 with
    | (s2, .error e) => (s2, .error e)
    | (s2, .ok _) =>
      match access_buildings env s2 with
      | (s3, .error e) => (s3, .error e)
      | (s3, .ok _) =>
        match access_schools env s3 with
        | (s4, .error e) => (s4, .error e)
        | (s4, .ok _) =>
          match access_hospitals env s4 with
          | (s5, .error e) => (s5, .error e)
          | (s5, .ok _) => ((access_road_network env s5).1, .ok ())

/-- The column `self.esc50_meta['filename'].apply(lambda f: os.path.join(audio_folder, f))`
of `access_esc50` (access.py, lines 109-111): `KeyError` when `filename` is
absent; when any filename cell is missing (`NaN`), the lambda calls
`os.path.join(audio_folder, nan)` and raises a `TypeError` (modelled as
`generic`); otherwise the joined path per row. -/
def DF.filenameApplied (df : DF) (folder : String) :
    Except PyErr (List (Option String)) :=
  match df.cols.findIdx? (fun c => c == "filename") with
  | none => .error .keyError
  | some i =>
    let cells := df.rows.map (fun r => (r.get? i).join)
    if cells.any (fun c => c.isNone) then .error .generic
    else .ok (cells.map (fun c => c.map (fun f => os_path_join folder f)))

/-- `DataAccess.access_esc50` (access.py, lines 107-113): read the metadata
CSV, cache it, add the `file_path` column, and return the cached table. -/
def access_esc50 (env : OxEnv) (s : DataAccess) (meta_path audio_folder : String) :
    DataAccess × Except PyErr DF :=
  match env.read_csv meta_path with
  | .error e => (s, .error e)
  | .ok m =>
    let s1 := { s with esc50_meta := some m }
    match m.filenameApplied audio_folder with
    | .error e => (s1, .error e)
    | .ok vals =>
      let m2 := m.setCol "file_path" vals
      ({ s with esc50_meta := some m2 }, .ok m2)

/-- A layer drawn by one of the plotting methods. -/
inductive Layer
  | areaL
  | buildingsL
  | roadsL
  | nodesL
  | poisL
  | schoolsL
  | hospitalsL
deriving DecidableEq

/-- `DataAccess.plot_city_map` (access.py, lines 121-158): try to fetch the
area boundary when it is missing (ignoring failure), then draw exactly the
layers that are enabled and populated. The plot is modelled as the list of
layers drawn. -/
def plot_city_map (env : OxEnv) (s : DataAccess)
    (show_pois show_buildings show_roads show_schools show_hospitals : Bool) :
    DataAccess × Except PyErr (List Layer) :=
  let s1 := if s.area.isNone then (access_area_boundary env s).1 else s
  (s1, .ok
    ((if s1.area.isSome then [Layer.areaL] else []) ++
     (if show_buildings && s1.buildings.isSome then [Layer.buildingsL] else []) ++
     (if show_roads && s1.edges.isSome then [Layer.roadsL] else []) ++
     (if show_pois && s1.pois.isSome then [Layer.poisL] else []) ++
     (if show_schools && s1.schools.isSome then [Layer.schoolsL] else []) ++
     (if show_hospitals && s1.hospitals.isSome then [Layer.hospitalsL] else [])))

/-- A `(key, value)` feature pair as used by the assessment methods:
the value is `None` or a string. -/
abbrev Feature := String × Option String

/-- Python truthiness of a feature value: `None` and the empty string are
falsy, every other string is truthy. -/
def truthy : Option String → Bool
  | none => false
  | some v => v ≠ ""

/-- Python `dict` assignment `d[k] = v`: update in place when the key exists,
append otherwise (insertion order is preserved, as in CPython). -/
def dictInsert (d : List (String × Nat)) (k : String) (v : Nat) :
    List (String × Nat) :=
  if d.any (fun p => p.1 == k) then
    d.map (fun p => if p.1 == k then (k, v) else p)
  else d ++ [(k, v)]

/-- `DataAssessment.default_features` (assess.py, lines 10-25). -/
def assess_default_features : List Feature :=
  [("building", none), ("amenity", none), ("amenity", some "school"),
   ("amenity", some "hospital"), ("amenity", some "restaurant"),
   ("amenity", some "cafe"), ("shop", none), ("tourism", none),
   ("tourism", some "hotel"), ("tourism", some "museum"), ("leisure", none),
   ("leisure", some "park"), ("historic", none),
   ("amenity", some "place_of_worship")]

/-- `DataSolution.default_features` (address.py, lines 10-25). -/
def address_default_features : List Feature :=
  [("building", none), ("amenity", none), ("amenity", some "school"),
   ("amenity", some "hospital"), ("amenity", some "restaurant"),
   ("amenity", some "cafe"), ("shop", none), ("tourism", none),
   ("tourism", some "hotel"), ("tourism", some "museum"), ("leisure", none),
   ("leisure", some "park"), ("historic", none),
   ("amenity", some "place_of_worship")]

/-- The `poi_counts` loop of `DataAssessment.assess_poi_distribution`
(assess.py, lines 37-45). -/
def assessPoiCounts (df : DF) (features : List Feature) : List (String × Nat) :=
  features.foldl
    (fun d kv =>
      if df.cols.contains kv.1 then
        if truthy kv.2 then
          dictInsert d (kv.1 ++ ":" ++ kv.2.getD "")
            ((df.colValues kv.1).countP (fun c => c == some (kv.2.getD "")))
        else
          dictInsert d kv.1 ((df.colValues kv.1).countP (fun c => c.isSome))
      else
        dictInsert d (if truthy kv.2 then kv.1 ++ ":" ++ kv.2.getD "" else kv.1) 0)
    []

/-- The `counts` loop of `DataSolution.address_feature_extraction`
(address.py, lines 71-79). -/
def addressFeatureCounts (pois : DF) (features : List Feature) :
    List (String × Nat) :=
  features.foldl
    (fun counts kv =>
      if pois.cols.contains kv.1 then
        if truthy kv.2 then
          dictInsert counts (kv.1 ++ ":" ++ kv.2.getD "")
            ((pois.colValues kv.1).countP (fun c => c == some (kv.2.getD "")))
        else
          dictInsert counts kv.1 ((pois.colValues kv.1).countP (fun c => c.isSome))
      else
        dictInsert counts (if truthy kv.2 then kv.1 ++ ":" ++ kv.2.getD "" else kv.1) 0)
    []

/-- The label both counting loops file a feature pair under:
`"key:value"` when the value is truthy, else `"key"`. -/
def featureLabel (kv : Feature) : String :=
  if truthy kv.2 then kv.1 ++ ":" ++ kv.2.getD "" else kv.1

/-- The count both loops compute for a feature pair: rows equal to the value
when it is truthy, non-null rows when it is falsy, `0` for an absent column. -/
def featureCount (df : DF) (kv : Feature) : Nat :=
  if df.cols.contains kv.1 then
    if truthy kv.2 then
      (df.colValues kv.1).countP (fun c => c == some (kv.2.getD ""))
    else
      (df.colValues kv.1).countP (fun c => c.isSome)
  else 0

/-- Geometry operations used by `assess_poi_distribution`: the centroid
latitude/longitude per row of a POI table (`row.geometry.centroid.y` / `.x`),
rendered as cell values. -/
structure GeoEnv where
  centroid_y : DF → List (Option String)
  centroid_x : DF → List (Option String)

/-- The dataframe `pois_df` built by `assess_poi_distribution`
(assess.py, lines 33-35): the POI table with `latitude` and `longitude`
columns appended from the geometry centroids. -/
def poisWithCentroids (geo : GeoEnv) (df : DF) : DF :=
  let df1 := df.setCol "latitude" (geo.centroid_y df)
  df1.setCol "longitude" (geo.centroid_x df1)

/-- `DataAssessment.assess_poi_distribution` (assess.py, lines 27-50): fetch
POIs only when the cache is empty, then count the feature pairs on the cached
table extended with centroid columns. -/
def assess_poi_distribution (env : OxEnv) (geo : GeoEnv) (s : DataAccess)
    (features : Option (List Feature)) :
    DataAccess × Except PyErr (List (String × Nat)) :=
  match s.pois with
  | some p =>
    (s, .ok (assessPoiCounts (poisWithCentroids geo p)
      (features.getD assess_default_features)))
  | none =>
    match access_pois env s none with
    | (s1, .error e) => (s1, .error e)
    | (s1, .ok p) =>
      (s1, .ok (assessPoiCounts (poisWithCentroids geo p)
        (features.getD assess_default_features)))

/-- `df.groupby("category").size().reset_index(name="count")` as used by
`assess_esc50_distribution`: `KeyError` when the column is absent, else one
row per distinct non-null category (sorted, as pandas sorts group keys) with
its row count. -/
def groupby_category_size (df : DF) : Except PyErr DF :=
  match df.cols.findIdx? (fun c => c == "category") with
  | none => .error .keyError
  | some i =>
    let vals := df.rows.map (fun r => (r.get? i).join)
    let cats := List.insertionSort (fun a b => a ≤ b) (vals.filterMap id).dedup
    .ok { cols := ["category", "count"],
          rows := cats.map (fun c =>
            [some c, some (toString (vals.countP (fun v => v == some c)))]) }

/-- The ESC-50 view an assessment method has of its `data_access` object:
`none` models an object without an `esc50_meta` attribute at all, and
`some m` an object whose `esc50_meta` attribute holds `m` (`m = none` being
Python `None`). For a `DataAccess` instance the view is always `some`. -/
abbrev Esc50Attr := Option (Option DF)

/-- `DataAssessment.assess_esc50_distribution` (assess.py, lines 52-61):
`ValueError` when the wrapped object has no `esc50_meta` attribute;
`AttributeError` from `None.groupby` when the attribute is `None`; otherwise
the category size table. -/
def assess_esc50_distribution (w : Esc50Attr) : Except PyErr DF :=
  match w with
  | none => .error .valueError
  | some none => .error .attributeError
  | some (some df) => groupby_category_size df

/-- Audio operations used by `assess_audio_duration`: the random subsample of
rows taken by `df.sample(n)`, and the duration `len(y)/sr` of
`librosa.load(path, sr=None)` (`none` models a load failure of an
undistinguished exception class). -/
structure AudioEnv where
  sample_rows : DF → Nat → DF
  load_duration : String → Option ℚ

/-- One step of the duration loop of `assess_audio_duration`
(assess.py, lines 69-72). -/
def durationStep (env : AudioEnv) (acc : Except PyErr (List ℚ))
    (pth : Option String) : Except PyErr (List ℚ) :=
  match acc with
  | .error e => .error e
  | .ok ds =>
    match pth with
    | none => .error .generic
    | some path =>
      match env.load_duration path with
      | none => .error .generic
      | some t => .ok (ds ++ [t])

/-- `DataAssessment.assess_audio_duration` (assess.py, lines 63-75), whose
`sample` parameter is a Python `int`: `ValueError` when the wrapped object
has no `esc50_meta` attribute; `AttributeError` from `None.sample` when the
attribute is `None`; `ValueError` again from
`df.sample(min(sample, len(df)))` when the requested row count is negative
(pandas rejects a negative `n`); otherwise the durations of a sample of the
listed audio files. -/
def assess_audio_duration (env : AudioEnv) (w : Esc50Attr) (sample : Int) :
    Except PyErr (List ℚ) :=
  match w with
  | none => .error .valueError
  | some none => .error .attributeError
  | some (some df) =>
    let n := min sample (df.rows.length : Int)
    if n < 0 then .error .valueError
    else
      let d := env.sample_rows df n.toNat
      match d.cols.findIdx? (fun c => c == "file_path") with
      | none => .error .keyError
      | some i =>
        (d.rows.map (fun r => (r.get? i).join)).foldl (durationStep env) (.ok [])

/-- `DataSolution.address_visualization` (address.py, lines 27-49): fetch all
data when any of area, buildings, edges, nodes, pois is missing, then draw the
populated layers. The figure is modelled as the list of layers drawn. -/
def address_visualization (env : OxEnv) (s : DataAccess) :
    DataAccess × Except PyErr (List Layer) :=
  let pre : DataAccess × Except PyErr Unit :=
    if s.area.isNone || s.buildings.isNone || s.edges.isNone ||
        s.nodes.isNone || s.pois.isNone then
      access_all_data env s
    else (s, .ok ())
  match pre with
  | (s1, .error e) => (s1, .error e)
  | (s1, .ok _) =>
    (s1, .ok
      ((if s1.area.isSome then [Layer.areaL] else []) ++
       (if s1.buildings.isSome then [Layer.buildingsL] else []) ++
       (if s1.edges.isSome then [Layer.roadsL] else []) ++
       (if s1.nodes.isSome then [Layer.nodesL] else []) ++
       (if s1.pois.isSome then [Layer.poisL] else [])))

/-- `DataSolution.address_feature_extraction` (address.py, lines 51-81):
derive a bounding box from the centre and size, query all keys of the feature
list, and count; on a query failure return the all-zero dictionary. -/
def address_feature_extraction (env : OxEnv) (latitude longitude : ℚ)
    (box_size_km : ℚ) (features : Option (List Feature)) :
    List (String × Nat) :=
  let fs := features.getD address_default_features
  let box_deg := box_size_km / 111
  let north := latitude + box_deg / 2
  let south := latitude - box_deg / 2
  let east := longitude + box_deg / 2
  let west := longitude - box_deg / 2
  let bbox := (west, south, east, north)
  let keys := (fs.map Prod.fst).dedup
  let tags : Tags := keys.map (fun k => (k, .bool true))
  match env.features_from_bbox bbox tags with
  | .error _ =>
    fs.foldl (fun d kv => dictInsert d (featureLabel kv) 0) []
  | .ok pois => addressFeatureCounts pois fs

/-- The state of `ESC50Dataset` (access.py, lines 161-169): the (possibly
fold-filtered) metadata table and the loader parameters. -/
structure ESC50Dataset where
  df : DF
  audio_path : String
  sr : Nat
  n_mels : Nat
  duration : Nat
deriving DecidableEq

/-- `ESC50Dataset.__init__` (access.py, lines 162-169): read the CSV and keep
only the rows whose `fold` is in `folds` when a fold list is given. -/
def mk_ESC50Dataset (env : OxEnv) (csv_path audio_path : String)
    (folds : Option (List String)) (sr n_mels duration : Nat) :
    Except PyErr ESC50Dataset :=
  match env.read_csv csv_path with
  | .error e => .error e
  | .ok df =>
    match folds with
    | none => .ok ⟨df, audio_path, sr, n_mels, duration⟩
    | some fl =>
      match df.cols.findIdx? (fun c => c == "fold") with
      | none => .error .keyError
      | some i =>
        .ok ⟨{ cols := df.cols,
               rows := df.rows.filter (fun r =>
                 match (r.get? i).join with
                 | some v => fl.contains v
                 | none => false) },
             audio_path, sr, n_mels, duration⟩

/-- Torch operations used by `ESC50Dataset.__getitem__`: `torchaudio.load`
(the waveform as channels of samples; the returned sample rate is unused by
the code), the `MelSpectrogram` transform and the `AmplitudeToDB` transform,
both abstracted as functions on the sample list. -/
structure TorchEnv where
  tload : String → Except PyErr (List (List ℚ))
  mel_spectrogram : Nat → Nat → List ℚ → List ℚ
  amplitude_to_db : List ℚ → List ℚ

/-- `waveform.mean(dim=0, keepdim=True)`: the pointwise mean of the channels,
reducing the waveform to a single channel. -/
def meanChannels (w : List (List ℚ)) : List ℚ :=
  match w with
  | [] => []
  | c :: _ =>
    (List.range c.length).map (fun j =>
      (w.map (fun ch => ch.getD j 0)).sum / w.length)

/-- `ESC50Dataset.__getitem__` (access.py, lines 174-189). `access.py` never
imports `torch`, so the padding branch taken when the recording is shorter
than `duration * sr` samples evaluates the unbound name
`torch.nn.functional.pad` and raises `NameError`. -/
def ESC50Dataset.getitem (env : TorchEnv) (ds : ESC50Dataset) (idx : Nat) :
    Except PyErr (List ℚ × Option String) :=
  match ds.df.rows.get? idx with
  | none => .error .generic
  | some row =>
    match ds.df.cols.findIdx? (fun c => c == "filename") with
    | none => .error .keyError
    | some i =>
      match (row.get? i).join with
      | none => .error .generic
      | some fn =>
        let filepath := os_path_join ds.audio_path fn
        match env.tload filepath with
        | .error e => .error e
        | .ok w =>
          let waveform := meanChannels w
          let num_samples := ds.duration * ds.sr
          if waveform.length < num_samples then
            .error .nameError
          else
            let truncated := waveform.take num_samples
            let mel_spec := env.mel_spectrogram ds.sr ds.n_mels truncated
            let mel_spec_db := env.amplitude_to_db mel_spec
            match ds.df.cols.findIdx? (fun c => c == "target") with
            | none => .error .keyError
            | some j => .ok (mel_spec_db, (row.get? j).join)

/-- Modelled from the spec: the Bayesian service-accessibility assessment of
the final variant of `assess.py` is not present under `src/`
(`src/fynesse/assess.py` is a revision without it). Per the spec it computes,
for a facility type and a distance threshold, a Bernoulli model of
accessibility within the threshold, a Gaussian fit to the nearest-facility
distances, and a Bayesian linear regression (population density → facility
count) estimated by Monte Carlo sampling. -/
structure AccessibilityAssessment where
  bernoulli_p : ℚ
  gauss_mean : ℚ
  gauss_var : ℚ
  slope_est : ℚ
  intercept_est : ℚ
deriving DecidableEq

/-- Mean of a list of rationals (`0` for the empty list). -/
def listMean (xs : List ℚ) : ℚ := xs.sum / xs.length

/-- Population variance of a list of rationals. -/
def listVar (xs : List ℚ) : ℚ :=
  listMean (xs.map (fun x => (x - listMean xs) ^ 2))

/-- Modelled from the spec: the Bernoulli accessibility parameter, the
empirical probability that a nearest-facility distance is within the
threshold. -/
def bernoulli_accessibility (dists : List ℚ) (threshold : ℚ) : ℚ :=
  ((dists.countP (fun d => decide (d ≤ threshold)) : Nat) : ℚ) /
    ((dists.length : Nat) : ℚ)

/-- Modelled from the spec: the Gaussian fitted to the nearest-facility
distances, by its mean and variance. -/
def gaussian_fit (dists : List ℚ) : ℚ × ℚ := (listMean dists, listVar dists)

/-- Modelled from the spec: the Monte Carlo estimate of the posterior mean of
the regression coefficients (slope, intercept), the average of the sampler's
posterior draws. -/
def mc_posterior_mean (draws : List (ℚ × ℚ)) : ℚ × ℚ :=
  (listMean (draws.map Prod.fst), listMean (draws.map Prod.snd))

/-- Modelled from the spec: the full assessment, combining the Bernoulli
model, the Gaussian fit and the Monte Carlo regression estimate. -/
def bayesian_accessibility_assessment (dists : List ℚ) (threshold : ℚ)
    (draws : List (ℚ × ℚ)) : AccessibilityAssessment :=
  { bernoulli_p := bernoulli_accessibility dists threshold
    gauss_mean := (gaussian_fit dists).1
    gauss_var := (gaussian_fit dists).2
    slope_est := (mc_posterior_mean draws).1
    intercept_est := (mc_posterior_mean draws).2 }

/-- A one-row POI table used as a concrete fetch result. -/
def dfA : DF := ⟨["amenity"], [[some "school"]]⟩

/-- A second concrete table, distinct from `dfA`. -/
def dfB : DF := ⟨["x"], [[none]]⟩

/-- A one-row ESC-50 metadata table with the columns the code reads. -/
def dfMeta : DF :=
  ⟨["filename", "fold", "target", "category"],
   [[some "a.wav", some "1", some "0", some "dog"]]⟩

/-- An environment in which every external fetch succeeds. -/
def wEnv : OxEnv where
  features_from_bbox := fun _ _ => .ok dfA
  graph_from_bbox := fun _ => .ok 7
  graph_to_gdfs := fun _ => .ok (dfA, dfB)
  geocode_to_gdf := fun _ => .ok dfB
  read_csv := fun _ => .ok dfMeta

/-- An environment in which the road graph is fetched but its conversion to
node/edge tables fails. -/
def cexEnv : OxEnv where
  features_from_bbox := fun _ _ => .ok dfA
  graph_from_bbox := fun _ => .ok 7
  graph_to_gdfs := fun _ => .error .generic
  geocode_to_gdf := fun _ => .ok dfA
  read_csv := fun _ => .ok dfMeta

/-- An environment in which fetching the road graph itself fails. -/
def gFailEnv : OxEnv where
  features_from_bbox := fun _ _ => .ok dfA
  graph_from_bbox := fun _ => .error .generic
  graph_to_gdfs := fun _ => .error .generic
  geocode_to_gdf := fun _ => .ok dfA
  read_csv := fun _ => .ok dfMeta

/-- An environment in which every external fetch fails. -/
def failEnv : OxEnv where
  features_from_bbox := fun _ _ => .error .generic
  graph_from_bbox := fun _ => .error .generic
  graph_to_gdfs := fun _ => .error .generic
  geocode_to_gdf := fun _ => .error .generic
  read_csv := fun _ => .error .generic

/-- An environment in which only geocoding fails. -/
def geoFailEnv : OxEnv where
  features_from_bbox := fun _ _ => .ok dfA
  graph_from_bbox := fun _ => .ok 7
  graph_to_gdfs := fun _ => .ok (dfA, dfB)
  geocode_to_gdf := fun _ => .error .generic
  read_csv := fun _ => .ok dfMeta

/-- An environment in which only the buildings query fails. -/
def bFailEnv : OxEnv where
  features_from_bbox := fun _ t =>
    if t = [("building", .bool true)] then .error .generic else .ok dfA
  graph_from_bbox := fun _ => .ok 7
  graph_to_gdfs := fun _ => .ok (dfA, dfB)
  geocode_to_gdf := fun _ => .ok dfA
  read_csv := fun _ => .ok dfMeta

/-- An environment in which only the schools query fails. -/
def scFailEnv : OxEnv where
  features_from_bbox := fun _ t =>
    if t = [("amenity", .str "school")] then .error .generic else .ok dfA
  graph_from_bbox := fun _ => .ok 7
  graph_to_gdfs := fun _ => .ok (dfA, dfB)
  geocode_to_gdf := fun _ => .ok dfA
  read_csv := fun _ => .ok dfMeta

/-- An environment in which only the hospitals query fails. -/
def hoFailEnv : OxEnv where
  features_from_bbox := fun _ t =>
    if t = [("amenity", .str "hospital")] then .error .generic else .ok dfA
  graph_from_bbox := fun _ => .ok 7
  graph_to_gdfs := fun _ => .ok (dfA, dfB)
  geocode_to_gdf := fun _ => .ok dfA
  read_csv := fun _ => .ok dfMeta

/-- A concrete geometry environment: every centroid renders as `"0"`. -/
def geoW : GeoEnv where
  centroid_y := fun df => df.rows.map (fun _ => some "0")
  centroid_x := fun df => df.rows.map (fun _ => some "0")

/-- A concrete audio environment: sampling keeps the whole table and every
load reports a one-second duration. -/
def audioW : AudioEnv where
  sample_rows := fun df _ => df
  load_duration := fun _ => some 1

/-- A freshly constructed `DataAccess` object. -/
def sFresh : DataAccess := mk_DataAccess "Cambridge" 52 0 (1 / 10) (1 / 10)

/-- A `DataAccess` state whose caches are all populated. -/
def sFull : DataAccess :=
  { sFresh with
    pois := some dfA, graph := some 1, area := some dfA, nodes := some dfA,
    edges := some dfA, buildings := some dfA, schools := some dfA,
    hospitals := some dfA, population := some dfA, esc50_meta := some dfMeta }

/-- A torch environment returning a three-sample single-channel recording,
with the spectrogram transforms abstracted as the identity. -/
def torchEnvShort : TorchEnv where
  tload := fun _ => .ok [[1, 2, 3]]
  mel_spectrogram := fun _ _ w => w
  amplitude_to_db := fun w => w

/-- A torch environment returning a seven-sample single-channel recording. -/
def torchEnvLong : TorchEnv where
  tload := fun _ => .ok [[1, 2, 3, 4, 5, 6, 7]]
  mel_spectrogram := fun _ _ w => w
  amplitude_to_db := fun w => w

/-- A concrete ESC-50 dataset whose clip length `duration * sr = 6`. -/
def esc50ds : ESC50Dataset :=
  ⟨⟨["filename", "target"], [[some "a.wav", some "0"]]⟩, "audio", 2, 4, 3⟩

/-- Claim C2: `DataAccess.__init__` derives the bounding box from the centre
and the box dimensions — `north = latitude + box_height/2`,
`south = latitude - box_height/2`, `west = longitude - box_width/2`,
`east = longitude + box_width/2` — and stores `bbox` as the four-tuple
`(west, south, east, north)`. -/
theorem c2_bbox_derivation (pn : String) (lat lon bw bh : ℚ) :
    (mk_DataAccess pn lat lon bw bh).north = lat + bh / 2 ∧
    (mk_DataAccess pn lat lon bw bh).south = lat - bh / 2 ∧
    (mk_DataAccess pn lat lon bw bh).west = lon - bw / 2 ∧
    (mk_DataAccess pn lat lon bw bh).east = lon + bw / 2 ∧
    (mk_DataAccess pn lat lon bw bh).bbox =
      (lon - bw / 2, lat - bh / 2, lon + bw / 2, lat + bh / 2) :=
  ⟨rfl, rfl, rfl, rfl, rfl⟩

/-- Claim C5: on a freshly constructed `DataAccess` object all ten cached
query-result attributes are `None`. -/
theorem c5_fresh_caches_none (pn : String) (lat lon bw bh : ℚ) :
    (mk_DataAccess pn lat lon bw bh).pois = none ∧
    (mk_DataAccess pn lat lon bw bh).graph = none ∧
    (mk_DataAccess pn lat lon bw bh).area = none ∧
    (mk_DataAccess pn lat lon bw bh).nodes = none ∧
    (mk_DataAccess pn lat lon bw bh).edges = none ∧
    (mk_DataAccess pn lat lon bw bh).buildings = none ∧
    (mk_DataAccess pn lat lon bw bh).schools = none ∧
    (mk_DataAccess pn lat lon bw bh).hospitals = none ∧
    (mk_DataAccess pn lat lon bw bh).population = none ∧
    (mk_DataAccess pn lat lon bw bh).esc50_meta = none :=
  ⟨rfl, rfl, rfl, rfl, rfl, rfl, rfl, rfl, rfl, rfl⟩

/-- One step of either counting loop equals the dictionary insertion of the
common label and count of the feature pair. -/
theorem countStep_eq_spec (df : DF) (d : List (String × Nat)) (kv : Feature) :
    (if df.cols.contains kv.1 then
       if truthy kv.2 then
         dictInsert d (kv.1 ++ ":" ++ kv.2.getD "")
           ((df.colValues kv.1).countP (fun c => c == some (kv.2.getD "")))
       else
         dictInsert d kv.1 ((df.colValues kv.1).countP (fun c => c.isSome))
     else
       dictInsert d (if truthy kv.2 then kv.1 ++ ":" ++ kv.2.getD "" else kv.1) 0)
    = dictInsert d (featureLabel kv) (featureCount df kv) := by
  unfold featureLabel featureCount
  by_cases h1 : kv.1 ∈ df.cols <;> by_cases h2 : truthy kv.2 <;>
    simp [h1, h2]

/-- Claim C8: the feature-counting logic of
`DataAssessment.assess_poi_distribution` and of
`DataSolution.address_feature_extraction` is equivalent: on the same POI
table and feature list both produce the same dictionary, and each pair is
filed under the label `"key:value"` (value truthy) or `"key"` with the count
of rows equal to the value (value truthy), of non-null rows (value `None`),
or `0` (key not a column). -/
theorem c8_counting_equivalence (df : DF) (fs : List Feature) :
    assessPoiCounts df fs = addressFeatureCounts df fs ∧
    assessPoiCounts df fs =
      fs.foldl (fun d kv => dictInsert d (featureLabel kv) (featureCount df kv))
        [] := by
  refine ⟨rfl, ?_⟩
  unfold assessPoiCounts
  exact List.foldl_ext _ _ [] (fun d kv _ => countStep_eq_spec df d kv)

/-- Claim C9 (code evaluation at the failing input): `access.py` never imports
`torch`, so `ESC50Dataset.__getitem__` raises `NameError` on any recording
shorter than `duration * sr` samples instead of zero-padding it; a recording
at least that long is truncated to exactly `duration * sr` samples and
returned as a spectrogram with the row's target. -/
theorem c9_getitem_short_clip_fails :
    ESC50Dataset.getitem torchEnvShort esc50ds 0 = .error .nameError ∧
    ESC50Dataset.getitem torchEnvLong esc50ds 0 =
      .ok ([1, 2, 3, 4, 5, 6], some "0") :=
  ⟨rfl, by with_unfolding_all rfl⟩

/-- The duration loop of `assess_audio_duration` never raises `ValueError`:
its own errors are load failures or missing paths. -/
theorem durationFold_ne_valueError (env : AudioEnv) (l : List (Option String))
    (acc : Except PyErr (List ℚ)) (h : acc ≠ .error .valueError) :
    l.foldl (durationStep env) acc ≠ .error .valueError := by
  induction l generalizing acc with
  | nil => simpa using h
  | cons x xs ih =>
    apply ih
    unfold durationStep
    cases acc with
    | error e => simpa using h
    | ok ds =>
      cases x with
      | none => simp
      | some p => cases hl : env.load_duration p <;> simp [hl]

/-- `groupby_category_size` cannot itself produce a `ValueError`. -/
theorem groupby_ne_valueError (df : DF) :
    groupby_category_size df ≠ .error .valueError := by
  unfold groupby_category_size
  cases hf : List.findIdx? (fun c => c == "category") df.cols <;> simp [hf]

/-- The body of `assess_audio_duration` after the guards cannot produce a
`ValueError`. -/
theorem audio_body_ne_valueError (env : AudioEnv) (d : DF) :
    (match List.findIdx? (fun c => c == "file_path") d.cols with
     | none => (.error .keyError : Except PyErr (List ℚ))
     | some i =>
       (d.rows.map (fun (r : List (Option String)) => (r.get? i).join)).foldl
         (durationStep env) (.ok [])) ≠ .error .valueError := by
  cases hf : List.findIdx? (fun c => c == "file_path") d.cols <;> simp only [hf]
  · simp
  · exact durationFold_ne_valueError env _ _ (by simp)

/-- Claim C10 counterexample: with the `esc50_meta` attribute present and the
metadata loaded, `assess_audio_duration` called with a negative sample size
still raises `ValueError` — `df.sample(min(sample, len(df)))` rejects a
negative row count — so the methods do not raise `ValueError` only when the
attribute is missing. -/
theorem c10_counterexample_negative_sample :
    (some (some dfMeta) : Esc50Attr).isSome = true ∧
    assess_audio_duration audioW (some (some dfMeta)) (-1) =
      .error .valueError :=
  ⟨rfl, rfl⟩

/-- Claim C10 as amended: `assess_esc50_distribution` raises `ValueError`
exactly when the wrapped object has no `esc50_meta` attribute at all;
`assess_audio_duration` raises `ValueError` exactly when the attribute is
missing or the metadata is loaded and the requested sample size is negative
(pandas `df.sample` rejects a negative row count). `DataAccess.__init__`
always creates the attribute (as `None`), so on a `DataAccess` instance with
unloaded metadata the `hasattr` guard does not fire — the methods fail with
`AttributeError` instead. -/
theorem c10_amended_hasattr_guard :
    (∀ w : Esc50Attr,
      assess_esc50_distribution w = .error .valueError ↔ w = none) ∧
    (∀ (env : AudioEnv) (w : Esc50Attr) (n : Int),
      assess_audio_duration env w n = .error .valueError ↔
        (w = none ∨ (n < 0 ∧ ∃ df, w = some (some df)))) ∧
    (∀ (pn : String) (lat lon bw bh : ℚ),
      (mk_DataAccess pn lat lon bw bh).esc50_meta = none ∧
      assess_esc50_distribution
        (some (mk_DataAccess pn lat lon bw bh).esc50_meta) =
          .error .attributeError ∧
      ∀ (env : AudioEnv) (n : Int),
        assess_audio_duration env
          (some (mk_DataAccess pn lat lon bw bh).esc50_meta) n =
            .error .attributeError) := by
  refine ⟨?_, ?_, ?_⟩
  · intro w
    constructor
    · intro h
      match w with
      | none => rfl
      | some none =>
        exact absurd
          (show (Except.error PyErr.attributeError : Except PyErr DF) =
            .error .valueError from h) (by simp)
      | some (some df) => exact absurd h (groupby_ne_valueError df)
    · rintro rfl; rfl
  · intro env w n
    constructor
    · intro h
      match w with
      | none => exact Or.inl rfl
      | some none =>
        exact absurd
          (show (Except.error PyErr.attributeError : Except PyErr (List ℚ)) =
            .error .valueError from h) (by simp)
      | some (some df) =>
        by_cases hn : n < 0
        · exact Or.inr ⟨hn, df, rfl⟩
        · exfalso
          have hmin : ¬ min n (df.rows.length : Int) < 0 := by
            push_neg at hn ⊢
            exact le_min hn (Int.natCast_nonneg _)
          simp only [assess_audio_duration, hmin, if_false] at h
          exact audio_body_ne_valueError env
            (env.sample_rows df (min n (df.rows.length : Int)).toNat) h
    · rintro (rfl | ⟨hn, df, rfl⟩)
      · rfl
      · have hmin : min n (df.rows.length : Int) < 0 :=
          lt_of_le_of_lt (min_le_left _ _) hn
        simp [assess_audio_duration, hmin]
  · intro pn lat lon bw bh
    exact ⟨rfl, rfl, fun env n => rfl⟩

/-- Claim C3 counterexample: on a fresh `DataAccess` object, whose
`esc50_meta` is `None`, the consumer `assess_esc50_distribution` does not
tolerate the `None` silently — it raises `AttributeError` (from
`None.groupby`), so not every consumer of an unpopulated field is
error-free. -/
theorem c3_counterexample_esc50_raises :
    sFresh.esc50_meta = none ∧
    assess_esc50_distribution (some sFresh.esc50_meta) =
      .error .attributeError ∧
    assess_audio_duration audioW (some sFresh.esc50_meta) 100 =
      .error .attributeError :=
  ⟨rfl, rfl, rfl⟩

/-- Claim C3 as amended: the map-data consumers tolerate unpopulated fields —
`plot_city_map` never raises and draws no layer whose data is `None`,
`assess_poi_distribution` fetches the POIs first when they are `None`, and
`address_visualization` fetches all the data first when any of its five
fields is `None` (its state is the post-`access_all_data` state) — but the
ESC-50 assessment methods do not: `assess_esc50_distribution` and
`assess_audio_duration` raise `AttributeError` whenever `esc50_meta` is
`None`. -/
theorem c3_amended_none_tolerance :
    (∀ (env : OxEnv) (s : DataAccess) (b1 b2 b3 b4 b5 : Bool),
      ∃ s1 L, plot_city_map env s b1 b2 b3 b4 b5 = (s1, .ok L) ∧
        (s1.area = none → Layer.areaL ∉ L) ∧
        (s1.buildings = none → Layer.buildingsL ∉ L) ∧
        (s1.edges = none → Layer.roadsL ∉ L) ∧
        (s1.pois = none → Layer.poisL ∉ L) ∧
        (s1.schools = none → Layer.schoolsL ∉ L) ∧
        (s1.hospitals = none → Layer.hospitalsL ∉ L)) ∧
    (∀ (env : OxEnv) (geo : GeoEnv) (s : DataAccess)
        (fs : Option (List Feature)) (p : DF),
      s.pois = none → env.features_from_bbox s.bbox s.default_tags = .ok p →
      assess_poi_distribution env geo s fs =
        ({ s with pois := some p },
         .ok (assessPoiCounts (poisWithCentroids geo p)
           (fs.getD assess_default_features)))) ∧
    (∀ (env : OxEnv) (s : DataAccess),
      (s.area.isNone || s.buildings.isNone || s.edges.isNone ||
        s.nodes.isNone || s.pois.isNone) = true →
      (address_visualization env s).1 = (access_all_data env s).1) ∧
    (∀ s : DataAccess, s.esc50_meta = none →
      assess_esc50_distribution (some s.esc50_meta) = .error .attributeError) ∧
    (∀ (aenv : AudioEnv) (s : DataAccess) (n : Int), s.esc50_meta = none →
      assess_audio_duration aenv (some s.esc50_meta) n =
        .error .attributeError) := by
  refine ⟨?_, ?_, ?_, ?_, ?_⟩
  · intro env s b1 b2 b3 b4 b5
    refine ⟨_, _, rfl, ?_, ?_, ?_, ?_, ?_, ?_⟩ <;> intro h <;>
      simp only [Option.isNone_iff_eq_none] at h <;> simp [h]
  · intro env geo s fs p h hf
    simp [assess_poi_distribution, access_pois, h, hf]
  · intro env s h
    rcases haa : access_all_data env s with ⟨s1, r⟩
    unfold address_visualization
    cases r <;> simp [h, haa]
  · intro s h
    rw [h]; rfl
  · intro aenv s n h
    rw [h]; rfl

/-- Claim C3 (amended) witness: the amended theorem applied to a fresh
object and an environment whose fetches succeed. -/
theorem c3_amended_witness :
    (sFresh.pois = none ∧
      wEnv.features_from_bbox sFresh.bbox sFresh.default_tags = .ok dfA ∧
      assess_poi_distribution wEnv geoW sFresh none =
        ({ sFresh with pois := some dfA },
         .ok (assessPoiCounts (poisWithCentroids geoW dfA)
           assess_default_features))) ∧
    ((sFresh.area.isNone || sFresh.buildings.isNone || sFresh.edges.isNone ||
        sFresh.nodes.isNone || sFresh.pois.isNone) = true ∧
      (address_visualization wEnv sFresh).1 =
        (access_all_data wEnv sFresh).1) ∧
    (sFresh.esc50_meta = none ∧
      assess_esc50_distribution (some sFresh.esc50_meta) =
        .error .attributeError) ∧
    assess_audio_duration audioW (some sFresh.esc50_meta) 3 =
      .error .attributeError :=
  ⟨⟨rfl, rfl, c3_amended_none_tolerance.2.1 wEnv geoW sFresh none dfA rfl rfl⟩,
   ⟨rfl, c3_amended_none_tolerance.2.2.1 wEnv sFresh rfl⟩,
   ⟨rfl, c3_amended_none_tolerance.2.2.2.1 sFresh rfl⟩,
   c3_amended_none_tolerance.2.2.2.2 audioW sFresh 3 rfl⟩

/-- Claim C6: populated caches are reused, not re-fetched. With `pois`
cached, `assess_poi_distribution` leaves the state unchanged and computes its
counts from the cached table (the result does not mention the fetch
environment); with all five of area, buildings, edges, nodes and pois cached,
`address_visualization` leaves every cached attribute unchanged and draws
from the caches (again independently of the fetch environment). -/
theorem c6_cache_reuse :
    (∀ (env : OxEnv) (geo : GeoEnv) (s : DataAccess)
        (fs : Option (List Feature)) (p : DF),
      s.pois = some p →
      assess_poi_distribution env geo s fs =
        (s, .ok (assessPoiCounts (poisWithCentroids geo p)
          (fs.getD assess_default_features)))) ∧
    (∀ (env : OxEnv) (s : DataAccess) (a b e n p : DF),
      s.area = some a → s.buildings = some b → s.edges = some e →
      s.nodes = some n → s.pois = some p →
      address_visualization env s =
        (s, .ok [Layer.areaL, Layer.buildingsL, Layer.roadsL, Layer.nodesL,
          Layer.poisL])) := by
  constructor
  · intro env geo s fs p h
    simp [assess_poi_distribution, h]
  · intro env s a b e n p ha hb he hn hp
    unfold address_visualization
    simp [ha, hb, he, hn, hp]

/-- Claim C6 witness: the reuse equations on a fully populated state. -/
theorem c6_cache_reuse_witness :
    sFull.pois = some dfA ∧
    assess_poi_distribution wEnv geoW sFull none =
      (sFull, .ok (assessPoiCounts (poisWithCentroids geoW dfA)
        assess_default_features)) ∧
    address_visualization wEnv sFull =
      (sFull, .ok [Layer.areaL, Layer.buildingsL, Layer.roadsL, Layer.nodesL,
        Layer.poisL]) :=
  ⟨rfl, c6_cache_reuse.1 wEnv geoW sFull none dfA rfl,
   c6_cache_reuse.2 wEnv sFull dfA dfA dfA dfA dfA rfl rfl rfl rfl rfl⟩

/-- Claim C7: every fetch method caches exactly its own result — on success
the returned value is what was stored, and no other cached attribute changes;
`access_road_network` stores graph, nodes and edges and returns
`(nodes, edges)`. -/
theorem c7_fetch_frame :
    (∀ (env : OxEnv) (s : DataAccess) (t : Option Tags) (p : DF),
      env.features_from_bbox s.bbox (t.getD s.default_tags) = .ok p →
      access_pois env s t = ({ s with pois := some p }, .ok p)) ∧
    (∀ (env : OxEnv) (s : DataAccess) (g : Nat) (n e : DF),
      env.graph_from_bbox s.bbox = .ok g →
      env.graph_to_gdfs g = .ok (n, e) →
      access_road_network env s =
        ({ s with graph := some g, nodes := some n, edges := some e },
         .ok (n, e))) ∧
    (∀ (env : OxEnv) (s : DataAccess) (a : DF),
      env.geocode_to_gdf s.place_name = .ok a →
      access_area_boundary env s = ({ s with area := some a }, .ok a)) ∧
    (∀ (env : OxEnv) (s : DataAccess) (b : DF),
      env.features_from_bbox s.bbox [("building", .bool true)] = .ok b →
      access_buildings env s = ({ s with buildings := some b }, .ok b)) ∧
    (∀ (env : OxEnv) (s : DataAccess) (sc : DF),
      env.features_from_bbox s.bbox [("amenity", .str "school")] = .ok sc →
      access_schools env s = ({ s with schools := some sc }, .ok sc)) ∧
    (∀ (env : OxEnv) (s : DataAccess) (ho : DF),
      env.features_from_bbox s.bbox [("amenity", .str "hospital")] = .ok ho →
      access_hospitals env s = ({ s with hospitals := some ho }, .ok ho)) ∧
    (∀ (env : OxEnv) (s : DataAccess) (path : String) (p : DF),
      env.read_csv path = .ok p →
      access_population env s path = ({ s with population := some p }, .ok p)) ∧
    (∀ (env : OxEnv) (s : DataAccess) (mp folder : String) (m : DF)
        (vals : List (Option String)),
      env.read_csv mp = .ok m → m.filenameApplied folder = .ok vals →
      access_esc50 env s mp folder =
        ({ s with esc50_meta := some (m.setCol "file_path" vals) },
         .ok (m.setCol "file_path" vals))) := by
  refine ⟨?_, ?_, ?_, ?_, ?_, ?_, ?_, ?_⟩
  · intro env s t p h; simp [access_pois, h]
  · intro env s g n e h1 h2; simp [access_road_network, h1, h2]
  · intro env s a h; simp [access_area_boundary, h]
  · intro env s b h; simp [access_buildings, h]
  · intro env s sc h; simp [access_schools, h]
  · intro env s ho h; simp [access_hospitals, h]
  · intro env s path p h; simp [access_population, h]
  · intro env s mp folder m vals h1 h2; simp [access_esc50, h1, h2]

/-- Claim C7 witness: the eight fetch equations in an environment where every
fetch succeeds, on a fresh object. -/
theorem c7_fetch_frame_witness :
    access_pois wEnv sFresh none = ({ sFresh with pois := some dfA }, .ok dfA) ∧
    access_road_network wEnv sFresh =
      ({ sFresh with graph := some 7, nodes := some dfA, edges := some dfB },
       .ok (dfA, dfB)) ∧
    access_area_boundary wEnv sFresh =
      ({ sFresh with area := some dfB }, .ok dfB) ∧
    access_buildings wEnv sFresh =
      ({ sFresh with buildings := some dfA }, .ok dfA) ∧
    access_schools wEnv sFresh =
      ({ sFresh with schools := some dfA }, .ok dfA) ∧
    access_hospitals wEnv sFresh =
      ({ sFresh with hospitals := some dfA }, .ok dfA) ∧
    access_population wEnv sFresh "pop.csv" =
      ({ sFresh with population := some dfMeta }, .ok dfMeta) ∧
    access_esc50 wEnv sFresh "meta.csv" "audio" =
      ({ sFresh with
          esc50_meta := some (dfMeta.setCol "file_path" [some "audio/a.wav"]) },
       .ok (dfMeta.setCol "file_path" [some "audio/a.wav"])) :=
  ⟨c7_fetch_frame.1 wEnv sFresh none dfA rfl,
   c7_fetch_frame.2.1 wEnv sFresh 7 dfA dfB rfl rfl,
   c7_fetch_frame.2.2.1 wEnv sFresh dfB rfl,
   c7_fetch_frame.2.2.2.1 wEnv sFresh dfA rfl,
   c7_fetch_frame.2.2.2.2.1 wEnv sFresh dfA rfl,
   c7_fetch_frame.2.2.2.2.2.1 wEnv sFresh dfA rfl,
   c7_fetch_frame.2.2.2.2.2.2.1 wEnv sFresh "pop.csv" dfMeta rfl,
   c7_fetch_frame.2.2.2.2.2.2.2 wEnv sFresh "meta.csv" "audio" dfMeta
     [some "audio/a.wav"] rfl (by with_unfolding_all rfl)⟩

/-- Claim C4 counterexample: in an environment where the road graph is
fetched but its conversion to node/edge tables fails, `access_all_data`
swallows the exception and returns normally, yet `graph` is NOT left
unchanged — the just-fetched graph has been cached before the failure. -/
theorem c4_counterexample_graph_changed :
    (access_all_data cexEnv sFresh).2 = .ok () ∧
    sFresh.graph = none ∧
    (access_all_data cexEnv sFresh).1.graph = some 7 :=
  ⟨rfl, rfl, rfl⟩

/-- Claim C4 as amended: when the five earlier fetches succeed, an exception
in `access_road_network` is swallowed and the method returns normally with
the five fetched results cached; `nodes` and `edges` are unchanged in either
failure mode, and `graph` is unchanged when fetching the graph itself fails
but holds the newly fetched graph when the failure occurs while converting it
to node/edge tables (and all three are updated on full success). An exception
raised by any of the five earlier fetches propagates to the caller, the
earlier results staying cached. -/
theorem c4_amended_all_data :
    (∀ (env : OxEnv) (s : DataAccess) (p a b sc ho : DF),
      env.features_from_bbox s.bbox s.default_tags = .ok p →
      env.geocode_to_gdf s.place_name = .ok a →
      env.features_from_bbox s.bbox [("building", .bool true)] = .ok b →
      env.features_from_bbox s.bbox [("amenity", .str "school")] = .ok sc →
      env.features_from_bbox s.bbox [("amenity", .str "hospital")] = .ok ho →
      (∀ er, env.graph_from_bbox s.bbox = .error er →
        access_all_data env s =
          ({ s with
              pois := some p, area := some a, buildings := some b,
              schools := some sc, hospitals := some ho }, .ok ())) ∧
      (∀ g er, env.graph_from_bbox s.bbox = .ok g →
          env.graph_to_gdfs g = .error er →
        access_all_data env s =
          ({ s with
              pois := some p, area := some a, buildings := some b,
              schools := some sc, hospitals := some ho, graph := some g },
           .ok ())) ∧
      (∀ g nd ed, env.graph_from_bbox s.bbox = .ok g →
          env.graph_to_gdfs g = .ok (nd, ed) →
        access_all_data env s =
          ({ s with
              pois := some p, area := some a, buildings := some b,
              schools := some sc, hospitals := some ho, graph := some g,
              nodes := some nd, edges := some ed }, .ok ()))) ∧
    (∀ (env : OxEnv) (s : DataAccess) (er : PyErr),
      env.features_from_bbox s.bbox s.default_tags = .error er →
      access_all_data env s = (s, .error er)) ∧
    (∀ (env : OxEnv) (s : DataAccess) (p : DF) (er : PyErr),
      env.features_from_bbox s.bbox s.default_tags = .ok p →
      env.geocode_to_gdf s.place_name = .error er →
      access_all_data env s = ({ s with pois := some p }, .error er)) ∧
    (∀ (env : OxEnv) (s : DataAccess) (p a : DF) (er : PyErr),
      env.features_from_bbox s.bbox s.default_tags = .ok p →
      env.geocode_to_gdf s.place_name = .ok a →
      env.features_from_bbox s.bbox [("building", .bool true)] = .error er →
      access_all_data env s =
        ({ s with pois := some p, area := some a }, .error er)) ∧
    (∀ (env : OxEnv) (s : DataAccess) (p a b : DF) (er : PyErr),
      env.features_from_bbox s.bbox s.default_tags = .ok p →
      env.geocode_to_gdf s.place_name = .ok a →
      env.features_from_bbox s.bbox [("building", .bool true)] = .ok b →
      env.features_from_bbox s.bbox [("amenity", .str "school")] = .error er →
      access_all_data env s =
        ({ s with
            pois := some p, area := some a, buildings := some b },
         .error er)) ∧
    (∀ (env : OxEnv) (s : DataAccess) (p a b sc : DF) (er : PyErr),
      env.features_from_bbox s.bbox s.default_tags = .ok p →
      env.geocode_to_gdf s.place_name = .ok a →
      env.features_from_bbox s.bbox [("building", .bool true)] = .ok b →
      env.features_from_bbox s.bbox [("amenity", .str "school")] = .ok sc →
      env.features_from_bbox s.bbox [("amenity", .str "hospital")] = .error er →
      access_all_data env s =
        ({ s with
            pois := some p, area := some a, buildings := some b,
            schools := some sc }, .error er)) := by
  refine ⟨?_, ?_, ?_, ?_, ?_, ?_⟩
  · intro env s p a b sc ho h1 h2 h3 h4 h5
    refine ⟨?_, ?_, ?_⟩
    · intro er hg
      simp [access_all_data, access_pois, access_area_boundary,
        access_buildings, access_schools, access_hospitals,
        access_road_network, h1, h2, h3, h4, h5, hg]
    · intro g er hg hc
      simp [access_all_data, access_pois, access_area_boundary,
        access_buildings, access_schools, access_hospitals,
        access_road_network, h1, h2, h3, h4, h5, hg, hc]
    · intro g nd ed hg hc
      simp [access_all_data, access_pois, access_area_boundary,
        access_buildings, access_schools, access_hospitals,
        access_road_network, h1, h2, h3, h4, h5, hg, hc]
  · intro env s er h1
    simp [access_all_data, access_pois, h1]
  · intro env s p er h1 h2
    simp [access_all_data, access_pois, access_area_boundary, h1, h2]
  · intro env s p a er h1 h2 h3
    simp [access_all_data, access_pois, access_area_boundary,
      access_buildings, h1, h2, h3]
  · intro env s p a b er h1 h2 h3 h4
    simp [access_all_data, access_pois, access_area_boundary,
      access_buildings, access_schools, h1, h2, h3, h4]
  · intro env s p a b sc er h1 h2 h3 h4 h5
    simp [access_all_data, access_pois, access_area_boundary,
      access_buildings, access_schools, access_hospitals, h1, h2, h3, h4, h5]

/-- Claim C4 (amended) witness: all six behaviours exercised on concrete
environments — full success, graph-fetch failure, conversion failure, and
each of the five propagating fetch failures. -/
theorem c4_amended_witness :
    access_all_data wEnv sFresh =
      ({ sFresh with
          pois := some dfA, area := some dfB, buildings := some dfA,
          schools := some dfA, hospitals := some dfA, graph := some 7,
          nodes := some dfA, edges := some dfB }, .ok ()) ∧
    access_all_data gFailEnv sFresh =
      ({ sFresh with
          pois := some dfA, area := some dfA, buildings := some dfA,
          schools := some dfA, hospitals := some dfA }, .ok ()) ∧
    access_all_data cexEnv sFresh =
      ({ sFresh with
          pois := some dfA, area := some dfA, buildings := some dfA,
          schools := some dfA, hospitals := some dfA, graph := some 7 },
       .ok ()) ∧
    access_all_data failEnv sFresh = (sFresh, .error .generic) ∧
    access_all_data geoFailEnv sFresh =
      ({ sFresh with pois := some dfA }, .error .generic) ∧
    access_all_data bFailEnv sFresh =
      ({ sFresh with pois := some dfA, area := some dfA }, .error .generic) ∧
    access_all_data scFailEnv sFresh =
      ({ sFresh with
          pois := some dfA, area := some dfA, buildings := some dfA },
       .error .generic) ∧
    access_all_data hoFailEnv sFresh =
      ({ sFresh with
          pois := some dfA, area := some dfA, buildings := some dfA,
          schools := some dfA }, .error .generic) :=
  ⟨(c4_amended_all_data.1 wEnv sFresh dfA dfB dfA dfA dfA rfl rfl rfl rfl
      rfl).2.2 7 dfA dfB rfl rfl,
   (c4_amended_all_data.1 gFailEnv sFresh dfA dfA dfA dfA dfA rfl rfl rfl rfl
      rfl).1 .generic rfl,
   (c4_amended_all_data.1 cexEnv sFresh dfA dfA dfA dfA dfA rfl rfl rfl rfl
      rfl).2.1 7 .generic rfl rfl,
   c4_amended_all_data.2.1 failEnv sFresh .generic rfl,
   c4_amended_all_data.2.2.1 geoFailEnv sFresh dfA .generic rfl rfl,
   c4_amended_all_data.2.2.2.1 bFailEnv sFresh dfA dfA .generic
     (by with_unfolding_all rfl) rfl (by with_unfolding_all rfl),
   c4_amended_all_data.2.2.2.2.1 scFailEnv sFresh dfA dfA dfA .generic
     (by with_unfolding_all rfl) rfl (by with_unfolding_all rfl)
     (by with_unfolding_all rfl),
   c4_amended_all_data.2.2.2.2.2 hoFailEnv sFresh dfA dfA dfA dfA .generic
     (by with_unfolding_all rfl) rfl (by with_unfolding_all rfl)
     (by with_unfolding_all rfl) (by with_unfolding_all rfl)⟩

/-- Claim C1: the Bayesian service-accessibility assessment (modelled from
the spec, the final `assess.py` variant being absent from the sources):
for nearest-facility distances and a distance threshold it computes a
Bernoulli accessibility model whose parameter is the fraction of distances
within the threshold (a probability, between 0 and 1), fits a Gaussian to the
distances by their sample mean and variance, and estimates the Bayesian
linear regression (population density → facility count) by the Monte Carlo
average of the sampler's posterior draws. -/
theorem c1_bayesian_assessment (dists : List ℚ) (threshold : ℚ)
    (draws : List (ℚ × ℚ)) (h : dists ≠ []) :
    (bayesian_accessibility_assessment dists threshold draws).bernoulli_p =
      ((dists.countP (fun d => decide (d ≤ threshold)) : Nat) : ℚ) /
        ((dists.length : Nat) : ℚ) ∧
    0 ≤ (bayesian_accessibility_assessment dists threshold draws).bernoulli_p ∧
    (bayesian_accessibility_assessment dists threshold draws).bernoulli_p ≤ 1 ∧
    (bayesian_accessibility_assessment dists threshold draws).gauss_mean =
      dists.sum / dists.length ∧
    (bayesian_accessibility_assessment dists threshold draws).gauss_var =
      (dists.map (fun x => (x - dists.sum / dists.length) ^ 2)).sum /
        dists.length ∧
    (bayesian_accessibility_assessment dists threshold draws).slope_est =
      (draws.map Prod.fst).sum / draws.length ∧
    (bayesian_accessibility_assessment dists threshold draws).intercept_est =
      (draws.map Prod.snd).sum / draws.length := by
  have hn : (0 : ℚ) < ((dists.length : Nat) : ℚ) := by
    exact_mod_cast List.length_pos.mpr h
  have hc : ((dists.countP (fun d => decide (d ≤ threshold)) : Nat) : ℚ) ≤
      ((dists.length : Nat) : ℚ) := by
    exact_mod_cast List.countP_le_length _
  refine ⟨rfl, ?_, ?_, rfl, ?_, ?_, ?_⟩
  · exact div_nonneg (Nat.cast_nonneg _) (Nat.cast_nonneg _)
  · exact (div_le_one hn).mpr hc
  · simp [bayesian_accessibility_assessment, gaussian_fit, listVar, listMean]
  · simp [bayesian_accessibility_assessment, mc_posterior_mean, listMean]
  · simp [bayesian_accessibility_assessment, mc_posterior_mean, listMean]

/-- Claim C1 witness: the assessment evaluated on two distances, a threshold
separating them, and one posterior draw. -/
theorem c1_bayesian_assessment_witness :
    ([1, 3] : List ℚ) ≠ [] ∧
    (bayesian_accessibility_assessment [1, 3] 2 [(5, 4)]).bernoulli_p =
      ((([1, 3] : List ℚ).countP (fun d => decide (d ≤ 2)) : Nat) : ℚ) /
        ((([1, 3] : List ℚ).length : Nat) : ℚ) ∧
    0 ≤ (bayesian_accessibility_assessment [1, 3] 2 [(5, 4)]).bernoulli_p ∧
    (bayesian_accessibility_assessment [1, 3] 2 [(5, 4)]).bernoulli_p ≤ 1 :=
  ⟨by decide,
   (c1_bayesian_assessment [1, 3] 2 [(5, 4)] (by decide)).1,
   (c1_bayesian_assessment [1, 3] 2 [(5, 4)] (by decide)).2.1,
   (c1_bayesian_assessment [1, 3] 2 [(5, 4)] (by decide)).2.2.1⟩

end Fynesse
